import Mathlib

/-!
Verification of the UnifyChatTarget adapter
(src/pyrit/prompt_target/prompt_chat_target/unify_chat_target.py).

The adapter wraps an external generation API for the PyRIT framework.
We embed the data model and the three operations of the class
(construction, send_prompt_async, _validate_request) as executable Lean
functions.  External collaborators (the memory store, the generation
endpoint, the host framework helpers) are passed as explicit parameters
or modelled from the spec, as noted in each doc comment.  Python
exceptions become Except values; the side effects of a send are recorded
in an explicit effect trace so that frame conditions can be stated.
-/

namespace PyritUnify

/-- Model of a PromptRequestPiece: role, conversation identifier, original
text, converted text, and a data-type tag, as used by the adapter. -/
structure PromptRequestPiece where
  role : String
  conversation_id : String
  original_value : String
  converted_value : String
  converted_value_data_type : String
  deriving Repr, DecidableEq

/-- Model of a PromptRequestResponse: an ordered sequence of request pieces. -/
structure PromptRequestResponse where
  request_pieces : List PromptRequestPiece
  deriving Repr, DecidableEq

/-- Model of a ChatMessage: role plus text, the unit exchanged with the
external API. -/
structure ChatMessage where
  role : String
  content : String
  deriving Repr, DecidableEq

/-- Modelled from the spec: the host framework converts a request piece to
the Chat Message appended as the new turn, carrying the role of the piece
and its converted text. -/
def PromptRequestPiece.to_chat_message (p : PromptRequestPiece) : ChatMessage :=
  { role := p.role, content := p.converted_value }

/-- Modelled from the spec: the response object of the host framework,
wrapping the returned text pieces against the originating request piece
(construct_response_from_request). -/
structure ConstructedResponse where
  request : PromptRequestPiece
  response_text_pieces : List String
  deriving Repr, DecidableEq

/-- Modelled from the spec: construct_response_from_request of the host
framework, returning a response wrapping the given text pieces against the
original request piece. -/
def construct_response_from_request (request : PromptRequestPiece)
    (response_text_pieces : List String) : ConstructedResponse :=
  { request := request, response_text_pieces := response_text_pieces }

/-- Python truthiness of an optional string argument: None and the empty
string are falsy, any other string is truthy. -/
def pyTruthy : Option String → Bool
  | none => false
  | some s => s ≠ ""

/-- Model of the configuration error (a ValueError) raised during
construction when no credential is available. -/
inductive ConfigError where
  | missingCredential
  deriving Repr, DecidableEq

/-- Modelled from the spec: default_values.get_required_value of the host
framework, which obtains a required value from the explicitly passed value
or, failing that, from the named environment variable, and fails with a
configuration error (ValueError) when neither source provides one.  The
environment is passed as a lookup function. -/
def get_required_value (env : String → Option String) (env_var_name : String)
    (passed_value : Option String) : Except ConfigError String :=
  if pyTruthy passed_value then Except.ok (passed_value.getD "")
  else
    match env env_var_name with
    | some v => if pyTruthy (some v) then Except.ok v else Except.error ConfigError.missingCredential
    | none => Except.error ConfigError.missingCredential

/-- Name of the environment variable holding the API credential
(UnifyChatTarget.API_KEY_ENVIRONMENT_VARIABLE). -/
def API_KEY_ENVIRONMENT_VARIABLE : String := "UNIFY_API_KEY"

/-- Model of the constructed adapter state: the credential and model
identifier stored on self by UnifyChatTarget.__init__. -/
structure UnifyChatTarget where
  api_key : String
  model_name : String
  deriving Repr, DecidableEq

/-- Embedding of UnifyChatTarget.__init__.  The api_key argument defaults
to None; the model_name argument has the Python default value
"gpt-3.5-turbo", modelled here by an Option that is none when the caller
omits the argument.  The credential is the passed api_key when truthy,
otherwise the result of get_required_value, whose failure propagates as
the configuration error. -/
def UnifyChatTarget.init (env : String → Option String) (api_key : Option String)
    (model_name : Option String) : Except ConfigError UnifyChatTarget :=
  if pyTruthy api_key then
    Except.ok { api_key := api_key.getD "", model_name := model_name.getD "gpt-3.5-turbo" }
  else
    match get_required_value env API_KEY_ENVIRONMENT_VARIABLE api_key with
    | Except.error e => Except.error e
    | Except.ok key =>
        Except.ok { api_key := key, model_name := model_name.getD "gpt-3.5-turbo" }

/-- Model of the errors raised by _validate_request: the two ValueErrors of
the source, and an index fault standing for an out-of-bounds access into
the piece list (a Python IndexError), which the code must never reach. -/
inductive ValidationError where
  | valueError (msg : String)
  | indexFault
  deriving Repr, DecidableEq

/-- Embedding of UnifyChatTarget._validate_request.  The source first
checks that the request has exactly one piece, raising a ValueError
otherwise; only then does it index piece 0 and check its data type.  The
index access is modelled by an optional lookup whose none branch is the
index fault. -/
def _validate_request (prompt_request : PromptRequestResponse) : Except ValidationError Unit :=
  if prompt_request.request_pieces.length ≠ 1 then
    Except.error (ValidationError.valueError
      "This target only supports a single prompt request piece.")
  else
    match prompt_request.request_pieces[0]? with
    | none => Except.error ValidationError.indexFault
    | some p =>
        if p.converted_value_data_type ≠ "text" then
          Except.error (ValidationError.valueError
            "This target only supports text prompt input.")
        else Except.ok ()

/-- Model of the errors a send can raise: a validation error from
_validate_request, an index fault from the piece access in
send_prompt_async itself, or an exception of the external generation
call, propagated unchanged. -/
inductive SendError (ε : Type) where
  | validation (v : ValidationError)
  | indexFault
  | external (e : ε)
  deriving Repr, DecidableEq

/-- Observable side effects of a send: reads and writes of the external
memory store, and invocations of the external generation endpoint. -/
inductive Effect where
  | memRead (conversation_id : String)
  | memWrite (conversation_id : String) (messages : List ChatMessage)
  | extGenerate (model : String) (messages : List ChatMessage)
  deriving Repr, DecidableEq

/-- Predicate selecting the memory-store effects of a trace. -/
def Effect.isMemOp : Effect → Bool
  | Effect.memRead _ => true
  | Effect.memWrite _ _ => true
  | Effect.extGenerate _ _ => false

/-- Predicate selecting the external generation calls of a trace. -/
def Effect.isGenerate : Effect → Bool
  | Effect.extGenerate _ _ => true
  | _ => false

/-- Embedding of UnifyChatTarget.send_prompt_async.  The memory store is
the lookup get_chat_messages_with_conversation_id, passed as a function
from conversation identifier to stored messages; the external generation
call of the Unify client is passed as a function from model name and
message list to a result or an exception.  The function returns the value
or error of the Python method together with the trace of external effects
it performed, in order. -/
def send_prompt_async {ε : Type} (t : UnifyChatTarget)
    (memory : String → List ChatMessage)
    (generate : String → List ChatMessage → Except ε String)
    (prompt_request : PromptRequestResponse) :
    Except (SendError ε) ConstructedResponse × List Effect :=
  match _validate_request prompt_request with
  | Except.error v => (Except.error (SendError.validation v), [])
  | Except.ok _ =>
      match prompt_request.request_pieces[0]? with
      | none => (Except.error SendError.indexFault, [])
      | some request =>
          let messages := memory request.conversation_id ++ [request.to_chat_message]
          let trace := [Effect.memRead request.conversation_id,
                        Effect.extGenerate t.model_name messages]
          match generate t.model_name messages with
          | Except.error e => (Except.error (SendError.external e), trace)
          | Except.ok resp_text =>
              (Except.ok (construct_response_from_request request [resp_text]), trace)

/-- Concrete text piece used as a test fixture in witnesses. -/
def textPiece : PromptRequestPiece :=
  { role := "user", conversation_id := "cid", original_value := "hi",
    converted_value := "hi", converted_value_data_type := "text" }

/-- Concrete second text piece used as a test fixture in witnesses. -/
def textPieceB : PromptRequestPiece :=
  { role := "user", conversation_id := "cid", original_value := "bye",
    converted_value := "bye", converted_value_data_type := "text" }

/-- Concrete non-text piece used as a test fixture in witnesses. -/
def imagePiece : PromptRequestPiece :=
  { role := "user", conversation_id := "cid", original_value := "a.png",
    converted_value := "a.png", converted_value_data_type := "image_path" }

/-- Concrete adapter state used as a test fixture in witnesses. -/
def sampleTarget : UnifyChatTarget := { api_key := "k", model_name := "m" }

/-- C1: for every prompt request with exactly one piece whose
converted-value data type is text, if the external generation call returns
text X, then send_prompt_async returns a response constructed from the
original request piece whose single response text piece is X. -/
theorem send_wraps_returned_text {ε : Type} (t : UnifyChatTarget)
    (memory : String → List ChatMessage)
    (generate : String → List ChatMessage → Except ε String)
    (piece : PromptRequestPiece) (req : PromptRequestResponse) (X : String)
    (hp : req.request_pieces = [piece])
    (ht : piece.converted_value_data_type = "text")
    (hg : generate t.model_name
        (memory piece.conversation_id ++ [piece.to_chat_message]) = Except.ok X) :
    (send_prompt_async t memory generate req).1
      = Except.ok (construct_response_from_request piece [X]) := by
  simp [send_prompt_async, _validate_request, hp, ht, hg]

/-- Witness for C1 at a concrete single-piece text request with a stubbed
external call returning X. -/
theorem send_wraps_returned_text_witness :
    (send_prompt_async (ε := Unit) sampleTarget
        (fun _ => []) (fun _ _ => Except.ok "X")
        { request_pieces := [textPiece] }).1
      = Except.ok (construct_response_from_request textPiece ["X"]) :=
  send_wraps_returned_text _ _ _ _ _ _ rfl rfl rfl

/-- C3: for every prompt request whose number of request pieces is not
exactly one, send_prompt_async fails with the single-piece ValueError. -/
theorem send_rejects_non_single_piece {ε : Type} (t : UnifyChatTarget)
    (memory : String → List ChatMessage)
    (generate : String → List ChatMessage → Except ε String)
    (req : PromptRequestResponse)
    (h : req.request_pieces.length ≠ 1) :
    (send_prompt_async t memory generate req).1
      = Except.error (SendError.validation (ValidationError.valueError
          "This target only supports a single prompt request piece.")) := by
  simp [send_prompt_async, _validate_request, h]

/-- Witness for C3 at a concrete request with two pieces. -/
theorem send_rejects_non_single_piece_witness :
    (send_prompt_async (ε := Unit) sampleTarget
        (fun _ => []) (fun _ _ => Except.ok "X")
        { request_pieces := [textPiece, textPieceB] }).1
      = Except.error (SendError.validation (ValidationError.valueError
          "This target only supports a single prompt request piece.")) :=
  send_rejects_non_single_piece _ _ _ _ (by decide)

/-- C4: for every prompt request with exactly one piece whose
converted-value data type is not text, send_prompt_async fails with the
text-only ValueError. -/
theorem send_rejects_non_text {ε : Type} (t : UnifyChatTarget)
    (memory : String → List ChatMessage)
    (generate : String → List ChatMessage → Except ε String)
    (piece : PromptRequestPiece) (req : PromptRequestResponse)
    (hp : req.request_pieces = [piece])
    (ht : piece.converted_value_data_type ≠ "text") :
    (send_prompt_async t memory generate req).1
      = Except.error (SendError.validation (ValidationError.valueError
          "This target only supports text prompt input.")) := by
  simp [send_prompt_async, _validate_request, hp, ht]

/-- Witness for C4 at a concrete single-piece request with an image piece. -/
theorem send_rejects_non_text_witness :
    (send_prompt_async (ε := Unit) sampleTarget
        (fun _ => []) (fun _ _ => Except.ok "X")
        { request_pieces := [imagePiece] }).1
      = Except.error (SendError.validation (ValidationError.valueError
          "This target only supports text prompt input.")) :=
  send_rejects_non_text _ _ _ _ _ rfl (by decide)

/-- C9: for a request with zero pieces, _validate_request returns the
single-piece ValueError, and for every request it never reaches the index
fault: the data-type check at index 0 runs only when the length check has
already passed, so validation is total and never faults on out-of-bounds
access. -/
theorem validate_never_faults (req : PromptRequestResponse) :
    (req.request_pieces = [] →
      _validate_request req = Except.error (ValidationError.valueError
        "This target only supports a single prompt request piece."))
  ∧ _validate_request req ≠ Except.error ValidationError.indexFault := by
  constructor
  · intro h
    simp [_validate_request, h]
  · cases hl : req.request_pieces with
    | nil => simp [_validate_request, hl]
    | cons p rest =>
      cases rest with
      | nil =>
        simp only [_validate_request, hl, List.length_cons, List.length_nil,
          List.getElem?_cons_zero, ne_eq]
        split
        · simp
        · split <;> simp
      | cons q rest2 => simp [_validate_request, hl]

/-- Witness for C9 at the concrete empty request. -/
theorem validate_never_faults_witness :
    _validate_request { request_pieces := [] }
      = Except.error (ValidationError.valueError
          "This target only supports a single prompt request piece.") :=
  (validate_never_faults { request_pieces := [] }).1 rfl

/-- C10: for every prompt request that fails validation,
send_prompt_async returns the validation error with an empty effect
trace: the memory store is never read and the external generation call is
never invoked, so a validation failure causes no external effect. -/
theorem send_validation_failure_no_effects {ε : Type} (t : UnifyChatTarget)
    (memory : String → List ChatMessage)
    (generate : String → List ChatMessage → Except ε String)
    (req : PromptRequestResponse) (v : ValidationError)
    (hv : _validate_request req = Except.error v) :
    send_prompt_async t memory generate req
      = (Except.error (SendError.validation v), []) := by
  simp [send_prompt_async, hv]

/-- Witness for C10 at a concrete zero-piece request. -/
theorem send_validation_failure_no_effects_witness :
    send_prompt_async (ε := Unit) sampleTarget
        (fun _ => []) (fun _ _ => Except.ok "X") { request_pieces := [] }
      = (Except.error (SendError.validation (ValidationError.valueError
          "This target only supports a single prompt request piece.")), []) :=
  send_validation_failure_no_effects _ _ _ _ _ rfl

/-- C2: for every valid single-piece text request, the message list passed
to the external generation call is exactly the stored chat messages for
the conversation identifier of the piece, in order, followed by the one
new message built from the piece, and the call uses the model identifier
fixed at construction. -/
theorem generate_receives_history_plus_new {ε : Type}
    (env : String → Option String) (api_key : Option String) (m : String)
    (t : UnifyChatTarget)
    (hinit : UnifyChatTarget.init env api_key (some m) = Except.ok t)
    (memory : String → List ChatMessage)
    (generate : String → List ChatMessage → Except ε String)
    (piece : PromptRequestPiece) (req : PromptRequestResponse)
    (hp : req.request_pieces = [piece])
    (ht : piece.converted_value_data_type = "text") :
    (send_prompt_async t memory generate req).2.filter Effect.isGenerate
      = [Effect.extGenerate m
          (memory piece.conversation_id ++ [piece.to_chat_message])] := by
  have hm : t.model_name = m := by
    unfold UnifyChatTarget.init at hinit
    split at hinit
    · injection hinit with h
      rw [← h]
      exact rfl
    · split at hinit
      · exact absurd hinit (by simp)
      · injection hinit with h
        rw [← h]
        exact rfl
  cases hg : generate m
      (memory piece.conversation_id ++ [piece.to_chat_message]) with
  | error e =>
    simp [send_prompt_async, _validate_request, hp, ht, hm, hg, Effect.isGenerate]
  | ok s =>
    simp [send_prompt_async, _validate_request, hp, ht, hm, hg, Effect.isGenerate]

/-- Witness for C2 at a concrete adapter, one stored prior message, and a
stubbed external call. -/
theorem generate_receives_history_plus_new_witness :
    (send_prompt_async (ε := Unit) sampleTarget
        (fun _ => [{ role := "assistant", content := "prev" }])
        (fun _ _ => Except.ok "X")
        { request_pieces := [textPiece] }).2.filter Effect.isGenerate
      = [Effect.extGenerate "m"
          ([{ role := "assistant", content := "prev" }]
            ++ [textPiece.to_chat_message])] :=
  generate_receives_history_plus_new (fun _ => none) (some "k") "m"
    sampleTarget rfl _ _ _ _ rfl rfl

/-- C5: construction fails with the configuration error exactly when
neither the passed api_key nor the UNIFY_API_KEY environment variable
provides a value, and succeeds in obtaining a credential when either
source provides one. -/
theorem init_credential_sources (env : String → Option String)
    (api_key model_name : Option String) :
    (pyTruthy api_key = false ∧ pyTruthy (env API_KEY_ENVIRONMENT_VARIABLE) = false →
      UnifyChatTarget.init env api_key model_name
        = Except.error ConfigError.missingCredential)
  ∧ (pyTruthy api_key = true ∨ pyTruthy (env API_KEY_ENVIRONMENT_VARIABLE) = true →
      ∃ t, UnifyChatTarget.init env api_key model_name = Except.ok t
        ∧ t.api_key ≠ "") := by
  constructor
  · rintro ⟨h1, h2⟩
    cases he : env API_KEY_ENVIRONMENT_VARIABLE with
    | none => simp [UnifyChatTarget.init, get_required_value, h1, he]
    | some v =>
      rw [he] at h2
      simp [UnifyChatTarget.init, get_required_value, h1, he, h2]
  · intro h
    by_cases hk : pyTruthy api_key = true
    · cases api_key with
      | none => simp [pyTruthy] at hk
      | some s =>
        refine ⟨{ api_key := s, model_name := model_name.getD "gpt-3.5-turbo" },
          by simp [UnifyChatTarget.init, hk], ?_⟩
        simpa [pyTruthy] using hk
    · have hk2 : pyTruthy api_key = false := by
        cases h3 : pyTruthy api_key
        · rfl
        · exact absurd h3 hk
      rcases h with h | he2
      · exact absurd h hk
      · cases hv : env API_KEY_ENVIRONMENT_VARIABLE with
        | none =>
          rw [hv] at he2
          simp [pyTruthy] at he2
        | some v =>
          rw [hv] at he2
          refine ⟨{ api_key := v, model_name := model_name.getD "gpt-3.5-turbo" },
            by simp [UnifyChatTarget.init, get_required_value, hk2, hv, he2], ?_⟩
          simpa [pyTruthy] using he2

/-- Witness for C5 at a concrete environment with no credential from
either source. -/
theorem init_credential_sources_witness :
    UnifyChatTarget.init (fun _ => none) none none
      = Except.error ConfigError.missingCredential :=
  (init_credential_sources (fun _ => none) none none).1 ⟨rfl, rfl⟩

/-- Counterexample to C6: the adapter is constructed without the caller
supplying any model identifier, and construction succeeds with the
default model identifier gpt-3.5-turbo. -/
theorem init_default_model_counterexample :
    UnifyChatTarget.init (fun _ => none) (some "key") none
      = Except.ok { api_key := "key", model_name := "gpt-3.5-turbo" } := rfl

/-- C6 amended: construction does not require the caller to supply a model
identifier; with a truthy explicit credential and no model identifier
supplied, construction succeeds and the adapter carries the default model
identifier gpt-3.5-turbo. -/
theorem init_without_model_uses_default (env : String → Option String)
    (api_key : Option String) (h : pyTruthy api_key = true) :
    UnifyChatTarget.init env api_key none
      = Except.ok { api_key := api_key.getD "", model_name := "gpt-3.5-turbo" } := by
  simp [UnifyChatTarget.init, h]

/-- Witness for the amended C6 at a concrete credential. -/
theorem init_without_model_uses_default_witness :
    UnifyChatTarget.init (fun _ => none) (some "k2") none
      = Except.ok { api_key := "k2", model_name := "gpt-3.5-turbo" } :=
  init_without_model_uses_default (fun _ => none) (some "k2") rfl

/-- C7: for every valid single-piece text request, an exception of the
external generation call propagates from send_prompt_async unchanged, and
the trace shows exactly one generation call, so no retry is attempted. -/
theorem send_propagates_external_error {ε : Type} (t : UnifyChatTarget)
    (memory : String → List ChatMessage)
    (generate : String → List ChatMessage → Except ε String) (e : ε)
    (piece : PromptRequestPiece) (req : PromptRequestResponse)
    (hp : req.request_pieces = [piece])
    (ht : piece.converted_value_data_type = "text")
    (hg : generate t.model_name
        (memory piece.conversation_id ++ [piece.to_chat_message])
        = Except.error e) :
    (send_prompt_async t memory generate req).1
        = Except.error (SendError.external e)
    ∧ ((send_prompt_async t memory generate req).2.filter
        Effect.isGenerate).length = 1 := by
  constructor <;>
    simp [send_prompt_async, _validate_request, hp, ht, hg, Effect.isGenerate]

/-- Witness for C7 at a concrete request with a stubbed external call that
raises. -/
theorem send_propagates_external_error_witness :
    (send_prompt_async (ε := String) sampleTarget (fun _ => [])
        (fun _ _ => Except.error "boom") { request_pieces := [textPiece] }).1
        = Except.error (SendError.external "boom")
    ∧ ((send_prompt_async (ε := String) sampleTarget (fun _ => [])
        (fun _ _ => Except.error "boom")
        { request_pieces := [textPiece] }).2.filter
        Effect.isGenerate).length = 1 :=
  send_propagates_external_error _ _ _ _ _ _ rfl rfl rfl

/-- C8: for every valid single-piece text request, the memory-store
effects of send_prompt_async are exactly one read of the conversation of
the piece and no write: the store is read-only from the adapter except
that the new turn is appended to the local message list before sending. -/
theorem send_memory_effects_single_read {ε : Type} (t : UnifyChatTarget)
    (memory : String → List ChatMessage)
    (generate : String → List ChatMessage → Except ε String)
    (piece : PromptRequestPiece) (req : PromptRequestResponse)
    (hp : req.request_pieces = [piece])
    (ht : piece.converted_value_data_type = "text") :
    (send_prompt_async t memory generate req).2.filter Effect.isMemOp
      = [Effect.memRead piece.conversation_id] := by
  cases hg : generate t.model_name
      (memory piece.conversation_id ++ [piece.to_chat_message]) with
  | error e =>
    simp [send_prompt_async, _validate_request, hp, ht, hg, Effect.isMemOp]
  | ok s =>
    simp [send_prompt_async, _validate_request, hp, ht, hg, Effect.isMemOp]

/-- Witness for C8 at a concrete request and stubbed collaborators. -/
theorem send_memory_effects_single_read_witness :
    (send_prompt_async (ε := Unit) sampleTarget (fun _ => [])
        (fun _ _ => Except.ok "X")
        { request_pieces := [textPiece] }).2.filter Effect.isMemOp
      = [Effect.memRead textPiece.conversation_id] :=
  send_memory_effects_single_read _ _ _ _ _ rfl rfl

end PyritUnify
